import Mathlib

/-!
Verification development for the denog WSI bridge
(src/ext/wsi of the denog repository).

The Rust sources are shallowly embedded as executable Lean definitions:

* `DeviceIds` / `serialize_device_id` embed src/ext/wsi/device_ids.rs and
  src/ext/wsi/serialize_device_id.rs (device-id virtualization);
* `WinitEvent`, `WsiEvent` and `wsiEventOfWinit` embed the native event
  type and the From conversions of src/ext/wsi/event.rs;
* `Request`, `serviceRequest`, `handle_requests` and `loopIteration` embed
  the request enum and drain loop of src/ext/wsi/request.rs together with
  the per-iteration closure of `hijack_main_and_spawn_proxy`
  (src/ext/wsi/event_loop.rs lines 50-54);
* `ProxyState`, `send_request`, `next_event_attempt` / `next_event_finish`
  and the per-operation methods embed `WsiEventLoopProxy`
  (src/ext/wsi/event_loop.rs lines 57-418).

Opaque foreign data (winit payloads, f64 values, OS errors, webgpu
instances) is carried as `Nat` / `Int` / `String` tokens that the embedded
code never inspects.  Calls into the native library are modelled by an
explicit oracle structure `Native` whose fields are named after the winit
methods the drain loop invokes.
-/

/-! ## Device-id virtualization (src/ext/wsi/device_ids.rs,
src/ext/wsi/serialize_device_id.rs)

`DeviceId` is an opaque native handle; we embed it as `Nat`.  The Rust
`HashMap<DeviceId, u32>` is embedded as an association list with
insertion at the back (the map API used is only `get` and fresh-key
`insert`, for which this is an exact model). -/

/-- Association-list lookup, the embedding of `HashMap::get`. -/
def lookupA : List (Nat × Nat) → Nat → Option Nat
  | [], _ => none
  | (k, v) :: rest, d => if k = d then some v else lookupA rest d

/-- Embedding of `DeviceIds` from device_ids.rs: a memoizing counter
mapping opaque native device ids to small stable integers.  The same
shape also embeds the `State` struct that serialize_device_id.rs keeps
inside its `static STATE: Mutex<Option<State>>`. -/
structure DeviceIds where
  map : List (Nat × Nat)
  next : Nat
deriving DecidableEq

/-- Embedding of `DeviceIds::new`: empty map, counter starting at 1. -/
def DeviceIds.new : DeviceIds := ⟨[], 1⟩

/-- Embedding of `DeviceIds::get`: return the memoized value if present,
otherwise assign the next counter value, record it, and bump the
counter. -/
def DeviceIds.get (s : DeviceIds) (d : Nat) : Nat × DeviceIds :=
  match lookupA s.map d with
  | some u => (u, s)
  | none => (s.next, ⟨s.map ++ [(d, s.next)], s.next + 1⟩)

/-- Embedding of `serialize_device_id` from serialize_device_id.rs.  The
process-global `static STATE: Mutex<Option<State>>` is threaded
explicitly as an `Option DeviceIds`: `none` is the not-yet-initialized
state, and the `none` branch performs the lazy initialization
(`map: HashMap::new(), next: 1`) before the common lookup logic. -/
def serialize_device_id (st : Option DeviceIds) (d : Nat) :
    Nat × Option DeviceIds :=
  let s := match st with
    | none => DeviceIds.new
    | some s => s
  match lookupA s.map d with
  | some u => (u, some s)
  | none => (s.next, some ⟨s.map ++ [(d, s.next)], s.next + 1⟩)

/-- Run `DeviceIds.get` over a whole call sequence, returning the list of
returned u32 values. -/
def runDeviceIds (s : DeviceIds) : List Nat → List Nat
  | [] => []
  | d :: ds =>
    let r := s.get d
    r.1 :: runDeviceIds r.2 ds

/-- Run `serialize_device_id` over a whole call sequence, threading the
global state, returning the list of returned u32 values. -/
def runSerialize (st : Option DeviceIds) : List Nat → List Nat
  | [] => []
  | d :: ds =>
    let r := serialize_device_id st d
    r.1 :: runSerialize r.2 ds

/-- Specification-side helper: the distinct device ids of a call
sequence in order of first appearance, continuing after the accumulator
`acc` of ids already seen. -/
def firstOccsAux (acc : List Nat) : List Nat → List Nat
  | [] => acc
  | d :: ds => firstOccsAux (if d ∈ acc then acc else acc ++ [d]) ds

/-- Specification-side helper: the distinct device ids of a call
sequence, in order of first appearance. -/
def firstOccs (ids : List Nat) : List Nat := firstOccsAux [] ids

/-- Specification-side helper: pair each element of a list with
consecutive numbers starting at `k`. -/
def enum1From (k : Nat) : List Nat → List (Nat × Nat)
  | [] => []
  | d :: ds => (d, k) :: enum1From (k + 1) ds

/-- Specification-side map for the device-id claim: the distinct device
ids of the call sequence, in order of first appearance, numbered
consecutively starting at 1. -/
def specDeviceMap (ids : List Nat) : List (Nat × Nat) :=
  enum1From 1 (firstOccs ids)

/-! ## Native events and their translation (src/ext/wsi/event.rs)

`WinitEvent` embeds winit's `Event<'_, ()>` and `WinitWindowEvent` embeds
winit's `WindowEvent<'_>`, exactly to the extent the repository matches
on them.  Foreign payloads the code moves but never inspects
(`StartCause`, `DeviceEvent`, `KeyboardInput`, `ModifiersState`, `Ime`,
positions and deltas with f64 components, `Touch`, `Theme`) are opaque
`Nat` tokens; sizes with u32 components are `Nat × Nat`, i32 positions
are `Int × Int`, paths are `String`. -/

/-- Embedding of winit's `WindowEvent<'_>` (the variants matched by
`From<WindowEvent<'_>> for WsiWindowEvent` in event.rs). -/
inductive WinitWindowEvent where
  | resized (size : Nat × Nat)
  | moved (position : Int × Int)
  | closeRequested
  | destroyed
  | droppedFile (path : String)
  | hoveredFile (path : String)
  | hoveredFileCancelled
  | receivedCharacter (character : Char)
  | focused (is_focused : Bool)
  | keyboardInput (device_id : Nat) (input : Nat) (is_synthetic : Bool)
  | modifiersChanged (modifiers : Nat)
  | ime (ime : Nat)
  | cursorMoved (device_id : Nat) (position : Nat) (modifiers : Nat)
  | cursorEntered (device_id : Nat)
  | cursorLeft (device_id : Nat)
  | mouseWheel (device_id : Nat) (delta : Nat) (phase : Nat)
      (modifiers : Nat)
  | mouseInput (device_id : Nat) (state : Nat) (button : Nat)
      (modifiers : Nat)
  | touchpadPressure (device_id : Nat) (pressure : Nat) (stage : Int)
  | axisMotion (device_id : Nat) (axis : Nat) (value : Nat)
  | touch (touch : Nat)
  | scaleFactorChanged (scale_factor : Nat) (new_inner_size : Nat × Nat)
  | themeChanged (theme : Nat)
  | occluded (is_occluded : Bool)
deriving DecidableEq

/-- Embedding of winit's `Event<'_, ()>` (the variants matched by
`From<Event<'_, ()>> for WsiEvent` in event.rs).  `userEvent` is the
injected wake marker; its `()` payload is carried explicitly. -/
inductive WinitEvent where
  | newEvents (start_cause : Nat)
  | windowEvent (window_id : Nat) (event : WinitWindowEvent)
  | deviceEvent (device_id : Nat) (event : Nat)
  | userEvent (payload : Unit)
  | suspended
  | resumed
  | mainEventsCleared
  | redrawRequested (window_id : Nat)
  | redrawEventsCleared
  | loopDestroyed
deriving DecidableEq

/-- Embedding of `WsiWindowEvent` from event.rs (the internal,
serializable window-event representation; deprecated `modifiers` fields
and the `new_inner_size` reference are dropped by the translation and do
not appear here). -/
inductive WsiWindowEvent where
  | resized (size : Nat × Nat)
  | moved (position : Int × Int)
  | closeRequested
  | destroyed
  | droppedFile (path : String)
  | hoveredFile (path : String)
  | hoveredFileCancelled
  | receivedCharacter (character : Char)
  | focused (is_focused : Bool)
  | keyboardInput (device_id : Nat) (input : Nat) (is_synthetic : Bool)
  | modifiersChanged (modifiers : Nat)
  | ime (ime : Nat)
  | cursorMoved (device_id : Nat) (position : Nat)
  | cursorEntered (device_id : Nat)
  | cursorLeft (device_id : Nat)
  | mouseWheel (device_id : Nat) (delta : Nat) (phase : Nat)
  | mouseInput (device_id : Nat) (state : Nat) (button : Nat)
  | touchpadPressure (device_id : Nat) (pressure : Nat) (stage : Int)
  | axisMotion (device_id : Nat) (axis : Nat) (value : Nat)
  | touch (touch : Nat)
  | scaleFactorChanged (scale_factor : Nat)
  | themeChanged (theme : Nat)
  | occluded (is_occluded : Bool)
deriving DecidableEq

/-- Embedding of `WsiEvent` from event.rs.  `userEvent` carries no
payload: the translation from the native event drops the `()` it
carried. -/
inductive WsiEvent where
  | newEvents (start_cause : Nat)
  | windowEvent (window_id : Nat) (event : WsiWindowEvent)
  | deviceEvent (device_id : Nat) (event : Nat)
  | userEvent
  | suspended
  | resumed
  | mainEventsCleared
  | redrawRequested (window_id : Nat)
  | redrawEventsCleared
  | loopDestroyed
deriving DecidableEq

/-- Embedding of `From<WindowEvent<'_>> for WsiWindowEvent`
(event.rs lines 116-205): a structural copy that drops the deprecated
`modifiers` fields and the `new_inner_size` reference. -/
def wsiWindowEventOfWinit : WinitWindowEvent → WsiWindowEvent
  | .resized size => .resized size
  | .moved position => .moved position
  | .closeRequested => .closeRequested
  | .destroyed => .destroyed
  | .droppedFile path => .droppedFile path
  | .hoveredFile path => .hoveredFile path
  | .hoveredFileCancelled => .hoveredFileCancelled
  | .receivedCharacter character => .receivedCharacter character
  | .focused is_focused => .focused is_focused
  | .keyboardInput device_id input is_synthetic =>
      .keyboardInput device_id input is_synthetic
  | .modifiersChanged modifiers => .modifiersChanged modifiers
  | .ime ime => .ime ime
  | .cursorMoved device_id position _ => .cursorMoved device_id position
  | .cursorEntered device_id => .cursorEntered device_id
  | .cursorLeft device_id => .cursorLeft device_id
  | .mouseWheel device_id delta phase _ => .mouseWheel device_id delta phase
  | .mouseInput device_id state button _ =>
      .mouseInput device_id state button
  | .touchpadPressure device_id pressure stage =>
      .touchpadPressure device_id pressure stage
  | .axisMotion device_id axis value => .axisMotion device_id axis value
  | .touch touch => .touch touch
  | .scaleFactorChanged scale_factor _ => .scaleFactorChanged scale_factor
  | .themeChanged theme => .themeChanged theme
  | .occluded is_occluded => .occluded is_occluded

/-- Embedding of `From<Event<'_, ()>> for WsiEvent` (event.rs lines
94-114), the translation applied by `event.into()` in the per-iteration
callback.  Note the `userEvent` arm: the payload is dropped and the
occurrence is mapped to `WsiEvent.userEvent` — it is not removed. -/
def wsiEventOfWinit : WinitEvent → WsiEvent
  | .newEvents start_cause => .newEvents start_cause
  | .windowEvent window_id event =>
      .windowEvent window_id (wsiWindowEventOfWinit event)
  | .deviceEvent device_id event => .deviceEvent device_id event
  | .userEvent _ => .userEvent
  | .suspended => .suspended
  | .resumed => .resumed
  | .mainEventsCleared => .mainEventsCleared
  | .redrawRequested window_id => .redrawRequested window_id
  | .redrawEventsCleared => .redrawEventsCleared
  | .loopDestroyed => .loopDestroyed

/-! ## Window registry and requests (src/ext/wsi/request.rs)

`WindowId` is the opaque, copyable identifier assigned by the native
library; we embed it as `Nat`.  The registry `HashMap<WindowId, Window>`
is embedded as a key-unique association list; the operations used are
`get`, `insert` (key-replacing) and `remove`.  Reply channels are
identified by `Nat` tokens (the `SyncSender` halves stored in requests).
Calls into the native library go through the `Native` oracle below. -/

/-- Embedding of a native `winit::window::Window` resource.  `id` is the
native `WindowId` returned by `window.id()`; `handle` stands for the
remaining opaque native state (display/window handles etc.). -/
structure Window where
  id : Nat
  handle : Nat
deriving DecidableEq

/-- The window registry: `HashMap<WindowId, Window>` as a key-unique
association list. -/
abbrev Registry := List (Nat × Window)

/-- Embedding of `HashMap::get` on the registry. -/
def lookupW : Registry → Nat → Option Window
  | [], _ => none
  | (k, w) :: rest, wid => if k = wid then some w else lookupW rest wid

/-- Embedding of `HashMap::insert` on the registry: replace the entry if
the key is present, otherwise append it. -/
def insertW : Registry → Nat → Window → Registry
  | [], wid, w => [(wid, w)]
  | (k, w0) :: rest, wid, w =>
    if k = wid then (wid, w) :: rest else (k, w0) :: insertW rest wid w

/-- Embedding of `HashMap::remove` on the registry: drop the entry with
the given key, if any. -/
def eraseW : Registry → Nat → Registry
  | [], _ => []
  | (k, w) :: rest, wid =>
    if k = wid then rest else (k, w) :: eraseW rest wid

/-- Embedding of `Result<T, E>`, the Rust result type carried through
reply channels. -/
inductive RResult (T E : Type) where
  | ok (value : T)
  | err (error : E)
deriving DecidableEq

/-- The value sent back over a reply channel, one constructor per reply
payload type occurring in the `Request` enum of request.rs.  `OsError`
and `NotSupportedError` are opaque `Nat` tokens; f64 values are opaque
`Nat` tokens. -/
inductive ReplyVal where
  | unit
  | bool (b : Bool)
  | optBool (b : Option Bool)
  | buttons (buttons : Nat)
  | optFullscreen (fullscreen : Option Nat)
  | surface (pair : Nat × Nat)
  | posResult (result : RResult (Int × Int) Nat)
  | size (size : Nat × Nat)
  | optSize (size : Option (Nat × Nat))
  | f64 (value : Nat)
  | optTheme (theme : Option Nat)
  | str (s : String)
  | createResult (result : RResult Nat Nat)
deriving DecidableEq

/-- Embedding of the `Request` enum of request.rs (all 38 variants, in
source order).  `resultTx : Nat` is the identity of the variant's
single-use reply channel sender; foreign payloads the drain loop only
forwards to the native library are opaque tokens. -/
inductive Request where
  | nextEvent
  | createWindow (options : Option Nat) (resultTx : Nat)
  | windowSetContentProtected (windowId : Nat) (isProtected : Bool)
      (resultTx : Nat)
  | windowIsDecorated (windowId : Nat) (resultTx : Nat)
  | windowSetDecorations (windowId : Nat) (decorations : Bool)
      (resultTx : Nat)
  | windowEnabledButtons (windowId : Nat) (resultTx : Nat)
  | windowSetEnabledButtons (windowId : Nat) (buttons : Nat)
      (resultTx : Nat)
  | windowHasFocus (windowId : Nat) (resultTx : Nat)
  | focusWindow (windowId : Nat) (resultTx : Nat)
  | windowFullscreen (windowId : Nat) (resultTx : Nat)
  | windowSetFullscreen (windowId : Nat) (fullscreen : Option Nat)
      (resultTx : Nat)
  | createWebGpuSurface (windowId : Nat) (webgpuInstance : Nat)
      (resultTx : Nat)
  | windowInnerPosition (windowId : Nat) (resultTx : Nat)
  | windowOuterPosition (windowId : Nat) (resultTx : Nat)
  | windowSetOuterPosition (windowId : Nat) (position : Int × Int)
      (resultTx : Nat)
  | windowInnerSize (windowId : Nat) (resultTx : Nat)
  | windowOuterSize (windowId : Nat) (resultTx : Nat)
  | windowSetInnerSize (windowId : Nat) (size : Nat × Nat)
      (resultTx : Nat)
  | windowSetMinInnerSize (windowId : Nat) (size : Option (Nat × Nat))
      (resultTx : Nat)
  | windowSetMaxInnerSize (windowId : Nat) (size : Option (Nat × Nat))
      (resultTx : Nat)
  | windowSetLevel (windowId : Nat) (level : Nat) (resultTx : Nat)
  | windowIsMinimized (windowId : Nat) (resultTx : Nat)
  | windowSetMinimized (windowId : Nat) (minimized : Bool)
      (resultTx : Nat)
  | windowIsMaximized (windowId : Nat) (resultTx : Nat)
  | windowSetMaximized (windowId : Nat) (maximized : Bool)
      (resultTx : Nat)
  | windowIsResizable (windowId : Nat) (resultTx : Nat)
  | windowSetResizable (windowId : Nat) (resizable : Bool)
      (resultTx : Nat)
  | windowResizeIncrements (windowId : Nat) (resultTx : Nat)
  | windowSetResizeIncrements (windowId : Nat)
      (increments : Option (Nat × Nat)) (resultTx : Nat)
  | windowScaleFactor (windowId : Nat) (resultTx : Nat)
  | windowTheme (windowId : Nat) (resultTx : Nat)
  | windowSetTheme (windowId : Nat) (theme : Option Nat) (resultTx : Nat)
  | windowTitle (windowId : Nat) (resultTx : Nat)
  | windowSetTitle (windowId : Nat) (title : String) (resultTx : Nat)
  | windowSetTransparent (windowId : Nat) (transparent : Bool)
      (resultTx : Nat)
  | windowIsVisible (windowId : Nat) (resultTx : Nat)
  | windowSetVisible (windowId : Nat) (visible : Bool) (resultTx : Nat)
  | windowRedraw (windowId : Nat) (resultTx : Nat)
  | destroyWindow (windowId : Nat) (resultTx : Nat)
deriving DecidableEq

/-- Oracle for the calls the drain loop makes into the native library.
`build` embeds `WindowBuilder::build(window_target)` (with the options
already folded into the builder); the remaining fields embed the
value-returning `winit::window::Window` methods invoked by
`handle_requests`.  Mutating window methods return `()` and are not part
of the oracle. -/
structure Native where
  build : Option Nat → RResult Window Nat
  instance_create_surface : Nat → Window → Nat × Nat
  is_decorated : Window → Bool
  enabled_buttons : Window → Nat
  has_focus : Window → Bool
  fullscreen : Window → Option Nat
  inner_position : Window → RResult (Int × Int) Nat
  outer_position : Window → RResult (Int × Int) Nat
  inner_size : Window → Nat × Nat
  outer_size : Window → Nat × Nat
  is_minimized : Window → Option Bool
  is_maximized : Window → Bool
  is_resizable : Window → Bool
  resize_increments : Window → Option (Nat × Nat)
  scale_factor : Window → Nat
  theme : Window → Option Nat
  title : Window → String
  is_visible : Window → Option Bool

/-- Outcome of servicing one request from the channel inside the
`handle_requests` loop: `stop` is the `Request::NextEvent => break` arm,
`panic` is a failed `windows.get(&window_id).unwrap()`, and
`reply windows tx v` is a completed arm that left the registry as
`windows` and sent `v` on the reply channel `tx`. -/
inductive ServiceOutcome where
  | stop
  | panic
  | reply (windows : Registry) (resultTx : Nat) (value : ReplyVal)
deriving DecidableEq

/-- The body of the `match request_rx.recv().unwrap()` in
`handle_requests` (request.rs lines 589-929), one arm per `Request`
variant, in source order.  Every window-operation arm does
`windows.get(&window_id).unwrap()` first — absence of the id is a panic
— except `CreateWindow` (which inserts on success and replies the typed
build result) and `DestroyWindow` (which removes unconditionally and
replies `()`). -/
def serviceRequest (native : Native) (r : Request) (windows : Registry) :
    ServiceOutcome :=
  match r with
  | .nextEvent => .stop
  | .createWindow options resultTx =>
    match native.build options with
    | .ok window =>
        .reply (insertW windows window.id window) resultTx
          (.createResult (.ok window.id))
    | .err e => .reply windows resultTx (.createResult (.err e))
  | .windowSetContentProtected windowId _protected resultTx =>
    match lookupW windows windowId with
    | none => .panic
    | some _window => .reply windows resultTx .unit
  | .windowIsDecorated windowId resultTx =>
    match lookupW windows windowId with
    | none => .panic
    | some window => .reply windows resultTx (.bool (native.is_decorated window))
  | .windowSetDecorations windowId _decorations resultTx =>
    match lookupW windows windowId with
    | none => .panic
    | some _window => .reply windows resultTx .unit
  | .windowEnabledButtons windowId resultTx =>
    match lookupW windows windowId with
    | none => .panic
    | some window =>
        .reply windows resultTx (.buttons (native.enabled_buttons window))
  | .windowSetEnabledButtons windowId _buttons resultTx =>
    match lookupW windows windowId with
    | none => .panic
    | some _window => .reply windows resultTx .unit
  | .windowHasFocus windowId resultTx =>
    match lookupW windows windowId with
    | none => .panic
    | some window => .reply windows resultTx (.bool (native.has_focus window))
  | .focusWindow windowId resultTx =>
    match lookupW windows windowId with
    | none => .panic
    | some _window => .reply windows resultTx .unit
  | .windowFullscreen windowId resultTx =>
    match lookupW windows windowId with
    | none => .panic
    | some window =>
        .reply windows resultTx (.optFullscreen (native.fullscreen window))
  | .windowSetFullscreen windowId _fullscreen resultTx =>
    match lookupW windows windowId with
    | none => .panic
    | some _window => .reply windows resultTx .unit
  | .createWebGpuSurface windowId webgpuInstance resultTx =>
    match lookupW windows windowId with
    | none => .panic
    | some window =>
        .reply windows resultTx
          (.surface (native.instance_create_surface webgpuInstance window))
  | .windowInnerPosition windowId resultTx =>
    match lookupW windows windowId with
    | none => .panic
    | some window =>
        .reply windows resultTx (.posResult (native.inner_position window))
  | .windowOuterPosition windowId resultTx =>
    match lookupW windows windowId with
    | none => .panic
    | some window =>
        .reply windows resultTx (.posResult (native.outer_position window))
  | .windowSetOuterPosition windowId _position resultTx =>
    match lookupW windows windowId with
    | none => .panic
    | some _window => .reply windows resultTx .unit
  | .windowInnerSize windowId resultTx =>
    match lookupW windows windowId with
    | none => .panic
    | some window =>
        .reply windows resultTx (.size (native.inner_size window))
  | .windowOuterSize windowId resultTx =>
    match lookupW windows windowId with
    | none => .panic
    | some window =>
        .reply windows resultTx (.size (native.outer_size window))
  | .windowSetInnerSize windowId _size resultTx =>
    match lookupW windows windowId with
    | none => .panic
    | some _window => .reply windows resultTx .unit
  | .windowSetMinInnerSize windowId _size resultTx =>
    match lookupW windows windowId with
    | none => .panic
    | some _window => .reply windows resultTx .unit
  | .windowSetMaxInnerSize windowId _size resultTx =>
    match lookupW windows windowId with
    | none => .panic
    | some _window => .reply windows resultTx .unit
  | .windowSetLevel windowId _level resultTx =>
    match lookupW windows windowId with
    | none => .panic
    | some _window => .reply windows resultTx .unit
  | .windowIsMinimized windowId resultTx =>
    match lookupW windows windowId with
    | none => .panic
    | some window =>
        .reply windows resultTx (.optBool (native.is_minimized window))
  | .windowSetMinimized windowId _minimized resultTx =>
    match lookupW windows windowId with
    | none => .panic
    | some _window => .reply windows resultTx .unit
  | .windowIsMaximized windowId resultTx =>
    match lookupW windows windowId with
    | none => .panic
    | some window =>
        .reply windows resultTx (.bool (native.is_maximized window))
  | .windowSetMaximized windowId _maximized resultTx =>
    match lookupW windows windowId with
    | none => .panic
    | some _window => .reply windows resultTx .unit
  | .windowIsResizable windowId resultTx =>
    match lookupW windows windowId with
    | none => .panic
    | some window =>
        .reply windows resultTx (.bool (native.is_resizable window))
  | .windowSetResizable windowId _resizable resultTx =>
    match lookupW windows windowId with
    | none => .panic
    | some _window => .reply windows resultTx .unit
  | .windowResizeIncrements windowId resultTx =>
    match lookupW windows windowId with
    | none => .panic
    | some window =>
        .reply windows resultTx (.optSize (native.resize_increments window))
  | .windowSetResizeIncrements windowId _increments resultTx =>
    match lookupW windows windowId with
    | none => .panic
    | some _window => .reply windows resultTx .unit
  | .windowScaleFactor windowId resultTx =>
    match lookupW windows windowId with
    | none => .panic
    | some window =>
        .reply windows resultTx (.f64 (native.scale_factor window))
  | .windowTheme windowId resultTx =>
    match lookupW windows windowId with
    | none => .panic
    | some window =>
        .reply windows resultTx (.optTheme (native.theme window))
  | .windowSetTheme windowId _theme resultTx =>
    match lookupW windows windowId with
    | none => .panic
    | some _window => .reply windows resultTx .unit
  | .windowTitle windowId resultTx =>
    match lookupW windows windowId with
    | none => .panic
    | some window => .reply windows resultTx (.str (native.title window))
  | .windowSetTitle windowId _title resultTx =>
    match lookupW windows windowId with
    | none => .panic
    | some _window => .reply windows resultTx .unit
  | .windowSetTransparent windowId _transparent resultTx =>
    match lookupW windows windowId with
    | none => .panic
    | some _window => .reply windows resultTx .unit
  | .windowIsVisible windowId resultTx =>
    match lookupW windows windowId with
    | none => .panic
    | some window =>
        .reply windows resultTx (.optBool (native.is_visible window))
  | .windowSetVisible windowId _visible resultTx =>
    match lookupW windows windowId with
    | none => .panic
    | some _window => .reply windows resultTx .unit
  | .windowRedraw windowId resultTx =>
    match lookupW windows windowId with
    | none => .panic
    | some _window => .reply windows resultTx .unit
  | .destroyWindow windowId resultTx =>
    .reply (eraseW windows windowId) resultTx .unit

/-- One observable step of the hijacked thread: forwarding a translated
native event on the Event Forwarding Channel, servicing one request,
sending a reply on a reply channel, or parking the native loop
(`control_flow.set_wait()`). -/
inductive LoopAction where
  | forward (event : WsiEvent)
  | service (request : Request)
  | reply (resultTx : Nat) (value : ReplyVal)
  | park
deriving DecidableEq

/-- Result of running `handle_requests` on the queued requests: `done`
means the `NextEvent` marker was received (the loop broke, `rest` still
queued), `blocked` means the queue ran dry with no marker (the real code
blocks inside `request_rx.recv()`), `panicked` means a registry lookup
unwrap failed on `offender`.  Each constructor carries the registry
left behind, the requests fully serviced (`serviced`, in order) and the
observable action trace. -/
inductive HandleResult where
  | done (windows : Registry) (serviced : List Request)
      (trace : List LoopAction) (rest : List Request)
  | blocked (windows : Registry) (serviced : List Request)
      (trace : List LoopAction)
  | panicked (windows : Registry) (serviced : List Request)
      (trace : List LoopAction) (offender : Request)
deriving DecidableEq

/-- Prepend a fully-serviced request and its actions to a
`HandleResult` (bookkeeping for the recursive `handle_requests`). -/
def prependRec (r : Request) (acts : List LoopAction) :
    HandleResult → HandleResult
  | .done windows serviced trace rest =>
      .done windows (r :: serviced) (acts ++ trace) rest
  | .blocked windows serviced trace =>
      .blocked windows (r :: serviced) (acts ++ trace)
  | .panicked windows serviced trace offender =>
      .panicked windows (r :: serviced) (acts ++ trace) offender

/-- Embedding of `handle_requests` (request.rs lines 584-930): pull
requests off the Request Channel in FIFO order and service each one
against the registry until the `NextEvent` marker breaks the loop. -/
def handle_requests (native : Native) :
    List Request → Registry → HandleResult
  | [], windows => .blocked windows [] []
  | r :: rest, windows =>
    match serviceRequest native r windows with
    | .stop => .done windows [] [] rest
    | .panic => .panicked windows [] [.service r] r
    | .reply windows2 resultTx v =>
        prependRec r [.service r, .reply resultTx v]
          (handle_requests native rest windows2)

/-- Embedding of the per-iteration closure passed to `event_loop.run` in
`hijack_main_and_spawn_proxy` (event_loop.rs lines 50-54):
`event_tx.blocking_send(event.into()).unwrap()` first (every occurrence,
translated by `wsiEventOfWinit`, is sent on the Event Forwarding
Channel), then `handle_requests(...)`, then `control_flow.set_wait()`
(the `park` action) — which is reached only when `handle_requests`
returned. -/
def loopIteration (native : Native) (event : WinitEvent)
    (q : List Request) (windows : Registry) : HandleResult :=
  match handle_requests native q windows with
  | .done windows2 serviced trace rest =>
      .done windows2 serviced
        (LoopAction.forward (wsiEventOfWinit event) :: trace ++ [LoopAction.park])
        rest
  | .blocked windows2 serviced trace =>
      .blocked windows2 serviced
        (LoopAction.forward (wsiEventOfWinit event) :: trace)
  | .panicked windows2 serviced trace offender =>
      .panicked windows2 serviced
        (LoopAction.forward (wsiEventOfWinit event) :: trace) offender

/-- The action trace of a `HandleResult`. -/
def HandleResult.trace : HandleResult → List LoopAction
  | .done _ _ trace _ => trace
  | .blocked _ _ trace => trace
  | .panicked _ _ trace _ => trace

/-- The events a trace sends on the Event Forwarding Channel, in order. -/
def forwardsOf : List LoopAction → List WsiEvent
  | [] => []
  | .forward e :: rest => e :: forwardsOf rest
  | _ :: rest => forwardsOf rest

/-- Claim-side observer: the `WindowId` a request carries, if any
(`NextEvent` and `CreateWindow` carry none; every other variant,
`DestroyWindow` included, carries one). -/
def Request.carriedWindowId : Request → Option Nat
  | .nextEvent => none
  | .createWindow _ _ => none
  | .windowSetContentProtected windowId _ _ => some windowId
  | .windowIsDecorated windowId _ => some windowId
  | .windowSetDecorations windowId _ _ => some windowId
  | .windowEnabledButtons windowId _ => some windowId
  | .windowSetEnabledButtons windowId _ _ => some windowId
  | .windowHasFocus windowId _ => some windowId
  | .focusWindow windowId _ => some windowId
  | .windowFullscreen windowId _ => some windowId
  | .windowSetFullscreen windowId _ _ => some windowId
  | .createWebGpuSurface windowId _ _ => some windowId
  | .windowInnerPosition windowId _ => some windowId
  | .windowOuterPosition windowId _ => some windowId
  | .windowSetOuterPosition windowId _ _ => some windowId
  | .windowInnerSize windowId _ => some windowId
  | .windowOuterSize windowId _ => some windowId
  | .windowSetInnerSize windowId _ _ => some windowId
  | .windowSetMinInnerSize windowId _ _ => some windowId
  | .windowSetMaxInnerSize windowId _ _ => some windowId
  | .windowSetLevel windowId _ _ => some windowId
  | .windowIsMinimized windowId _ => some windowId
  | .windowSetMinimized windowId _ _ => some windowId
  | .windowIsMaximized windowId _ => some windowId
  | .windowSetMaximized windowId _ _ => some windowId
  | .windowIsResizable windowId _ => some windowId
  | .windowSetResizable windowId _ _ => some windowId
  | .windowResizeIncrements windowId _ => some windowId
  | .windowSetResizeIncrements windowId _ _ => some windowId
  | .windowScaleFactor windowId _ => some windowId
  | .windowTheme windowId _ => some windowId
  | .windowSetTheme windowId _ _ => some windowId
  | .windowTitle windowId _ => some windowId
  | .windowSetTitle windowId _ _ => some windowId
  | .windowSetTransparent windowId _ _ => some windowId
  | .windowIsVisible windowId _ => some windowId
  | .windowSetVisible windowId _ _ => some windowId
  | .windowRedraw windowId _ => some windowId
  | .destroyWindow windowId _ => some windowId

/-- Claim-side observer: the `WindowId` on which the servicing arm
performs `windows.get(&window_id).unwrap()` — every window operation
except `NextEvent`, `CreateWindow` and `DestroyWindow`. -/
def Request.lookupWindowId (r : Request) : Option Nat :=
  match r with
  | .destroyWindow _ _ => none
  | _ => r.carriedWindowId

/-! ## The event loop proxy (src/ext/wsi/event_loop.rs)

`WsiEventLoopProxy` lives on the proxy (worker) thread.  Its observable
state is embedded as `ProxyState`:

* `waiting_for_event` embeds the `Cell<bool>` of the same name;
* `event_rx_taken` embeds whether the `Cell<Option<Receiver>>` slot
  `event_rx` is currently `None` (taken by an outstanding `next_event`);
* `next_chan` is the allocator for fresh reply-channel identities
  (`std_mpsc::sync_channel` calls);
* `sent_requests` is the history of requests sent on the Request
  Channel, `wake_signals` the count of `event_loop_proxy.send_event(())`
  wake injections — observer fields recording what the code did;
* `pending_next` / `woken_since` are history fields: whether a
  `next_event` call has sent its request and not yet received its event,
  and whether a `send_request` has fired the wake since that request was
  sent.  They are written only by the steps below, never read by them.

The proxy thread is single-threaded with cooperative tasks: the only
suspension point is `event_rx.recv().await` inside `next_event`, so the
atomic steps are (1) `next_event` up to that await (`next_event_attempt`),
(2) the remainder after the event arrives (`next_event_finish`), and
(3) any complete synchronous proxy method (channel creation +
`send_request`; the blocking reply receive does not touch proxy state). -/

/-- Embedding of the `Request` enum as used by the proxy methods of
event_loop.rs lines 104-418 (this revision of the enum has
`WindowSetAlwaysOnTop` and no content-protection/theme/title-query
variants).  The `resultTx` field is the identity of the reply channel
sender moved into the request. -/
inductive ProxyRequest where
  | nextEvent
  | createWindow (options : Option Nat) (resultTx : Nat)
  | destroyWindow (windowId : Nat) (resultTx : Nat)
  | createWebGpuSurface (windowId : Nat) (webgpuInstance : Nat)
      (resultTx : Nat)
  | windowScaleFactor (windowId : Nat) (resultTx : Nat)
  | windowRedraw (windowId : Nat) (resultTx : Nat)
  | windowInnerPosition (windowId : Nat) (resultTx : Nat)
  | windowOuterPosition (windowId : Nat) (resultTx : Nat)
  | windowSetOuterPosition (windowId : Nat) (position : Int × Int)
      (resultTx : Nat)
  | windowInnerSize (windowId : Nat) (resultTx : Nat)
  | windowSetInnerSize (windowId : Nat) (size : Nat × Nat)
      (resultTx : Nat)
  | windowOuterSize (windowId : Nat) (resultTx : Nat)
  | windowSetMinInnerSize (windowId : Nat) (size : Option (Nat × Nat))
      (resultTx : Nat)
  | windowSetMaxInnerSize (windowId : Nat) (size : Option (Nat × Nat))
      (resultTx : Nat)
  | windowSetTitle (windowId : Nat) (title : String) (resultTx : Nat)
  | windowSetVisible (windowId : Nat) (visible : Bool) (resultTx : Nat)
  | windowIsVisible (windowId : Nat) (resultTx : Nat)
  | windowSetResizable (windowId : Nat) (resizable : Bool)
      (resultTx : Nat)
  | windowIsResizable (windowId : Nat) (resultTx : Nat)
  | windowSetMinimized (windowId : Nat) (minimized : Bool)
      (resultTx : Nat)
  | windowSetMaximized (windowId : Nat) (maximized : Bool)
      (resultTx : Nat)
  | windowIsMaximized (windowId : Nat) (resultTx : Nat)
  | windowSetFullscreen (windowId : Nat) (fullscreen : Option Nat)
      (resultTx : Nat)
  | windowFullscreen (windowId : Nat) (resultTx : Nat)
  | windowSetDecorations (windowId : Nat) (decorations : Bool)
      (resultTx : Nat)
  | windowIsDecorated (windowId : Nat) (resultTx : Nat)
  | windowSetAlwaysOnTop (windowId : Nat) (alwaysOnTop : Bool)
      (resultTx : Nat)
  | focusWindow (windowId : Nat) (resultTx : Nat)
deriving DecidableEq

/-- Claim-side observer: the reply-channel sender a proxy request
carries (`NextEvent` carries none). -/
def ProxyRequest.replyChan : ProxyRequest → Option Nat
  | .nextEvent => none
  | .createWindow _ resultTx => some resultTx
  | .destroyWindow _ resultTx => some resultTx
  | .createWebGpuSurface _ _ resultTx => some resultTx
  | .windowScaleFactor _ resultTx => some resultTx
  | .windowRedraw _ resultTx => some resultTx
  | .windowInnerPosition _ resultTx => some resultTx
  | .windowOuterPosition _ resultTx => some resultTx
  | .windowSetOuterPosition _ _ resultTx => some resultTx
  | .windowInnerSize _ resultTx => some resultTx
  | .windowSetInnerSize _ _ resultTx => some resultTx
  | .windowOuterSize _ resultTx => some resultTx
  | .windowSetMinInnerSize _ _ resultTx => some resultTx
  | .windowSetMaxInnerSize _ _ resultTx => some resultTx
  | .windowSetTitle _ _ resultTx => some resultTx
  | .windowSetVisible _ _ resultTx => some resultTx
  | .windowIsVisible _ resultTx => some resultTx
  | .windowSetResizable _ _ resultTx => some resultTx
  | .windowIsResizable _ resultTx => some resultTx
  | .windowSetMinimized _ _ resultTx => some resultTx
  | .windowSetMaximized _ _ resultTx => some resultTx
  | .windowIsMaximized _ resultTx => some resultTx
  | .windowSetFullscreen _ _ resultTx => some resultTx
  | .windowFullscreen _ resultTx => some resultTx
  | .windowSetDecorations _ _ resultTx => some resultTx
  | .windowIsDecorated _ resultTx => some resultTx
  | .windowSetAlwaysOnTop _ _ resultTx => some resultTx
  | .focusWindow _ resultTx => some resultTx

/-- A reply channel created by `std_mpsc::sync_channel(cap)`: its
identity and its capacity. -/
structure Chan where
  id : Nat
  cap : Nat
deriving DecidableEq

/-- The observable state of `WsiEventLoopProxy` (see the section
comment for the role of each field). -/
structure ProxyState where
  waiting_for_event : Bool
  event_rx_taken : Bool
  next_chan : Nat
  sent_requests : List ProxyRequest
  wake_signals : Nat
  pending_next : Bool
  woken_since : Bool
deriving DecidableEq

/-- The proxy state at construction (event_loop.rs lines 35-40):
`waiting_for_event: Cell::new(false)`, `event_rx: Cell::new(Some(..))`. -/
def initProxyState : ProxyState :=
  { waiting_for_event := false
    event_rx_taken := false
    next_chan := 0
    sent_requests := []
    wake_signals := 0
    pending_next := false
    woken_since := false }

/-- Embedding of `std_mpsc::sync_channel(cap)`: allocate a fresh channel
of the given capacity. -/
def mkSyncChannel (cap : Nat) (p : ProxyState) : Chan × ProxyState :=
  (⟨p.next_chan, cap⟩, { p with next_chan := p.next_chan + 1 })

/-- Embedding of `WsiEventLoopProxy::send_request` (event_loop.rs lines
90-102): send the request on the Request Channel; then, if
`waiting_for_event` is set, fire the wake signal
(`event_loop_proxy.send_event(())`) and clear the flag. -/
def send_request (p : ProxyState) (request : ProxyRequest) : ProxyState :=
  let p := { p with sent_requests := p.sent_requests ++ [request] }
  if p.waiting_for_event then
    { p with
      wake_signals := p.wake_signals + 1
      waiting_for_event := false
      woken_since := true }
  else
    p

/-- Outcome of calling `next_event` up to its suspension point. -/
inductive NextEventOutcome where
  | error (msg : String)
  | suspended
deriving DecidableEq

/-- Embedding of `WsiEventLoopProxy::next_event` (event_loop.rs lines
68-79) up to the `event_rx.recv().await` suspension point: take the
receiver slot for exclusive use (failing immediately if it is already
taken), send `Request::NextEvent` directly on `request_tx` (not through
`send_request`), set `waiting_for_event`, and suspend. -/
def next_event_attempt (p : ProxyState) : ProxyState × NextEventOutcome :=
  if p.event_rx_taken then
    (p, .error "Receiver already in use")
  else
    ({ p with
        event_rx_taken := true
        sent_requests := p.sent_requests ++ [ProxyRequest.nextEvent]
        waiting_for_event := true
        pending_next := true
        woken_since := false },
      .suspended)

/-- Embedding of the remainder of `WsiEventLoopProxy::next_event`
(event_loop.rs lines 79-86) once `event_rx.recv().await` has yielded the
event: clear `waiting_for_event`, restore the receiver slot for re-use,
and return the event. -/
def next_event_finish (p : ProxyState) : ProxyState :=
  { p with
    waiting_for_event := false
    pending_next := false
    event_rx_taken := false }

/-- Result of running one synchronous proxy method: the state after its
`send_request`, the request it sent, and the reply channel whose
receiver it then blocks on (`result_rx.recv().unwrap()`). -/
structure MethodRun where
  state : ProxyState
  req : ProxyRequest
  recvChan : Chan
deriving DecidableEq

/-- Embedding of `WsiEventLoopProxy::create_window` (event_loop.rs lines
104-111): fresh rendezvous reply channel, send the request, block on the
reply.  All the window-operation methods below follow the same shape,
each embedded separately from its source method. -/
def create_window (p : ProxyState) (options : Option Nat) : MethodRun :=
  let c := mkSyncChannel 0 p
  let req := ProxyRequest.createWindow options c.1.id
  ⟨send_request c.2 req, req, c.1⟩

/-- Embedding of `WsiEventLoopProxy::destroy_window`. -/
def destroy_window (p : ProxyState) (windowId : Nat) : MethodRun :=
  let c := mkSyncChannel 0 p
  let req := ProxyRequest.destroyWindow windowId c.1.id
  ⟨send_request c.2 req, req, c.1⟩

/-- Embedding of `WsiEventLoopProxy::create_webgpu_surface`. -/
def create_webgpu_surface (p : ProxyState) (windowId : Nat)
    (webgpuInstance : Nat) : MethodRun :=
  let c := mkSyncChannel 0 p
  let req := ProxyRequest.createWebGpuSurface windowId webgpuInstance c.1.id
  ⟨send_request c.2 req, req, c.1⟩

/-- Embedding of `WsiEventLoopProxy::window_scale_factor`. -/
def window_scale_factor (p : ProxyState) (windowId : Nat) : MethodRun :=
  let c := mkSyncChannel 0 p
  let req := ProxyRequest.windowScaleFactor windowId c.1.id
  ⟨send_request c.2 req, req, c.1⟩

/-- Embedding of `WsiEventLoopProxy::window_request_redraw`. -/
def window_request_redraw (p : ProxyState) (windowId : Nat) : MethodRun :=
  let c := mkSyncChannel 0 p
  let req := ProxyRequest.windowRedraw windowId c.1.id
  ⟨send_request c.2 req, req, c.1⟩

/-- Embedding of `WsiEventLoopProxy::window_inner_position`. -/
def window_inner_position (p : ProxyState) (windowId : Nat) : MethodRun :=
  let c := mkSyncChannel 0 p
  let req := ProxyRequest.windowInnerPosition windowId c.1.id
  ⟨send_request c.2 req, req, c.1⟩

/-- Embedding of `WsiEventLoopProxy::window_outer_position`. -/
def window_outer_position (p : ProxyState) (windowId : Nat) : MethodRun :=
  let c := mkSyncChannel 0 p
  let req := ProxyRequest.windowOuterPosition windowId c.1.id
  ⟨send_request c.2 req, req, c.1⟩

/-- Embedding of `WsiEventLoopProxy::window_set_outer_position`. -/
def window_set_outer_position (p : ProxyState) (windowId : Nat)
    (position : Int × Int) : MethodRun :=
  let c := mkSyncChannel 0 p
  let req := ProxyRequest.windowSetOuterPosition windowId position c.1.id
  ⟨send_request c.2 req, req, c.1⟩

/-- Embedding of `WsiEventLoopProxy::window_inner_size`. -/
def window_inner_size (p : ProxyState) (windowId : Nat) : MethodRun :=
  let c := mkSyncChannel 0 p
  let req := ProxyRequest.windowInnerSize windowId c.1.id
  ⟨send_request c.2 req, req, c.1⟩

/-- Embedding of `WsiEventLoopProxy::window_set_inner_size`. -/
def window_set_inner_size (p : ProxyState) (windowId : Nat)
    (size : Nat × Nat) : MethodRun :=
  let c := mkSyncChannel 0 p
  let req := ProxyRequest.windowSetInnerSize windowId size c.1.id
  ⟨send_request c.2 req, req, c.1⟩

/-- Embedding of `WsiEventLoopProxy::window_outer_size`. -/
def window_outer_size (p : ProxyState) (windowId : Nat) : MethodRun :=
  let c := mkSyncChannel 0 p
  let req := ProxyRequest.windowOuterSize windowId c.1.id
  ⟨send_request c.2 req, req, c.1⟩

/-- Embedding of `WsiEventLoopProxy::window_set_min_inner_size`. -/
def window_set_min_inner_size (p : ProxyState) (windowId : Nat)
    (size : Option (Nat × Nat)) : MethodRun :=
  let c := mkSyncChannel 0 p
  let req := ProxyRequest.windowSetMinInnerSize windowId size c.1.id
  ⟨send_request c.2 req, req, c.1⟩

/-- Embedding of `WsiEventLoopProxy::window_set_max_inner_size`. -/
def window_set_max_inner_size (p : ProxyState) (windowId : Nat)
    (size : Option (Nat × Nat)) : MethodRun :=
  let c := mkSyncChannel 0 p
  let req := ProxyRequest.windowSetMaxInnerSize windowId size c.1.id
  ⟨send_request c.2 req, req, c.1⟩

/-- Embedding of `WsiEventLoopProxy::window_set_title`. -/
def window_set_title (p : ProxyState) (windowId : Nat) (title : String) :
    MethodRun :=
  let c := mkSyncChannel 0 p
  let req := ProxyRequest.windowSetTitle windowId title c.1.id
  ⟨send_request c.2 req, req, c.1⟩

/-- Embedding of `WsiEventLoopProxy::window_set_visible`. -/
def window_set_visible (p : ProxyState) (windowId : Nat) (visible : Bool) :
    MethodRun :=
  let c := mkSyncChannel 0 p
  let req := ProxyRequest.windowSetVisible windowId visible c.1.id
  ⟨send_request c.2 req, req, c.1⟩

/-- Embedding of `WsiEventLoopProxy::window_is_visible`. -/
def window_is_visible (p : ProxyState) (windowId : Nat) : MethodRun :=
  let c := mkSyncChannel 0 p
  let req := ProxyRequest.windowIsVisible windowId c.1.id
  ⟨send_request c.2 req, req, c.1⟩

/-- Embedding of `WsiEventLoopProxy::window_set_resizable`. -/
def window_set_resizable (p : ProxyState) (windowId : Nat)
    (resizable : Bool) : MethodRun :=
  let c := mkSyncChannel 0 p
  let req := ProxyRequest.windowSetResizable windowId resizable c.1.id
  ⟨send_request c.2 req, req, c.1⟩

/-- Embedding of `WsiEventLoopProxy::window_is_resizable`. -/
def window_is_resizable (p : ProxyState) (windowId : Nat) : MethodRun :=
  let c := mkSyncChannel 0 p
  let req := ProxyRequest.windowIsResizable windowId c.1.id
  ⟨send_request c.2 req, req, c.1⟩

/-- Embedding of `WsiEventLoopProxy::window_set_minimized`. -/
def window_set_minimized (p : ProxyState) (windowId : Nat)
    (minimized : Bool) : MethodRun :=
  let c := mkSyncChannel 0 p
  let req := ProxyRequest.windowSetMinimized windowId minimized c.1.id
  ⟨send_request c.2 req, req, c.1⟩

/-- Embedding of `WsiEventLoopProxy::window_set_maximized`. -/
def window_set_maximized (p : ProxyState) (windowId : Nat)
    (maximized : Bool) : MethodRun :=
  let c := mkSyncChannel 0 p
  let req := ProxyRequest.windowSetMaximized windowId maximized c.1.id
  ⟨send_request c.2 req, req, c.1⟩

/-- Embedding of `WsiEventLoopProxy::window_is_maximized`. -/
def window_is_maximized (p : ProxyState) (windowId : Nat) : MethodRun :=
  let c := mkSyncChannel 0 p
  let req := ProxyRequest.windowIsMaximized windowId c.1.id
  ⟨send_request c.2 req, req, c.1⟩

/-- Embedding of `WsiEventLoopProxy::window_set_fullscreen`. -/
def window_set_fullscreen (p : ProxyState) (windowId : Nat)
    (fullscreen : Option Nat) : MethodRun :=
  let c := mkSyncChannel 0 p
  let req := ProxyRequest.windowSetFullscreen windowId fullscreen c.1.id
  ⟨send_request c.2 req, req, c.1⟩

/-- Embedding of `WsiEventLoopProxy::window_fullscreen`. -/
def window_fullscreen (p : ProxyState) (windowId : Nat) : MethodRun :=
  let c := mkSyncChannel 0 p
  let req := ProxyRequest.windowFullscreen windowId c.1.id
  ⟨send_request c.2 req, req, c.1⟩

/-- Embedding of `WsiEventLoopProxy::window_set_decorations`. -/
def window_set_decorations (p : ProxyState) (windowId : Nat)
    (decorations : Bool) : MethodRun :=
  let c := mkSyncChannel 0 p
  let req := ProxyRequest.windowSetDecorations windowId decorations c.1.id
  ⟨send_request c.2 req, req, c.1⟩

/-- Embedding of `WsiEventLoopProxy::window_is_decorated`. -/
def window_is_decorated (p : ProxyState) (windowId : Nat) : MethodRun :=
  let c := mkSyncChannel 0 p
  let req := ProxyRequest.windowIsDecorated windowId c.1.id
  ⟨send_request c.2 req, req, c.1⟩

/-- Embedding of `WsiEventLoopProxy::window_set_always_on_top`. -/
def window_set_always_on_top (p : ProxyState) (windowId : Nat)
    (alwaysOnTop : Bool) : MethodRun :=
  let c := mkSyncChannel 0 p
  let req := ProxyRequest.windowSetAlwaysOnTop windowId alwaysOnTop c.1.id
  ⟨send_request c.2 req, req, c.1⟩

/-- Embedding of `WsiEventLoopProxy::focus_window`. -/
def focus_window (p : ProxyState) (windowId : Nat) : MethodRun :=
  let c := mkSyncChannel 0 p
  let req := ProxyRequest.focusWindow windowId c.1.id
  ⟨send_request c.2 req, req, c.1⟩

/-- One public window-operation call on the proxy, with its payload:
one constructor per `pub(crate)` window method of `WsiEventLoopProxy`
(everything except the async `next_event`). -/
inductive ProxyCall where
  | create_window (options : Option Nat)
  | destroy_window (windowId : Nat)
  | create_webgpu_surface (windowId : Nat) (webgpuInstance : Nat)
  | window_scale_factor (windowId : Nat)
  | window_request_redraw (windowId : Nat)
  | window_inner_position (windowId : Nat)
  | window_outer_position (windowId : Nat)
  | window_set_outer_position (windowId : Nat) (position : Int × Int)
  | window_inner_size (windowId : Nat)
  | window_set_inner_size (windowId : Nat) (size : Nat × Nat)
  | window_outer_size (windowId : Nat)
  | window_set_min_inner_size (windowId : Nat) (size : Option (Nat × Nat))
  | window_set_max_inner_size (windowId : Nat) (size : Option (Nat × Nat))
  | window_set_title (windowId : Nat) (title : String)
  | window_set_visible (windowId : Nat) (visible : Bool)
  | window_is_visible (windowId : Nat)
  | window_set_resizable (windowId : Nat) (resizable : Bool)
  | window_is_resizable (windowId : Nat)
  | window_set_minimized (windowId : Nat) (minimized : Bool)
  | window_set_maximized (windowId : Nat) (maximized : Bool)
  | window_is_maximized (windowId : Nat)
  | window_set_fullscreen (windowId : Nat) (fullscreen : Option Nat)
  | window_fullscreen (windowId : Nat)
  | window_set_decorations (windowId : Nat) (decorations : Bool)
  | window_is_decorated (windowId : Nat)
  | window_set_always_on_top (windowId : Nat) (alwaysOnTop : Bool)
  | focus_window (windowId : Nat)
deriving DecidableEq

/-- Dispatch a `ProxyCall` to its method embedding. -/
def runCall (c : ProxyCall) (p : ProxyState) : MethodRun :=
  match c with
  | .create_window options => create_window p options
  | .destroy_window windowId => destroy_window p windowId
  | .create_webgpu_surface windowId webgpuInstance =>
      create_webgpu_surface p windowId webgpuInstance
  | .window_scale_factor windowId => window_scale_factor p windowId
  | .window_request_redraw windowId => window_request_redraw p windowId
  | .window_inner_position windowId => window_inner_position p windowId
  | .window_outer_position windowId => window_outer_position p windowId
  | .window_set_outer_position windowId position =>
      window_set_outer_position p windowId position
  | .window_inner_size windowId => window_inner_size p windowId
  | .window_set_inner_size windowId size =>
      window_set_inner_size p windowId size
  | .window_outer_size windowId => window_outer_size p windowId
  | .window_set_min_inner_size windowId size =>
      window_set_min_inner_size p windowId size
  | .window_set_max_inner_size windowId size =>
      window_set_max_inner_size p windowId size
  | .window_set_title windowId title => window_set_title p windowId title
  | .window_set_visible windowId visible =>
      window_set_visible p windowId visible
  | .window_is_visible windowId => window_is_visible p windowId
  | .window_set_resizable windowId resizable =>
      window_set_resizable p windowId resizable
  | .window_is_resizable windowId => window_is_resizable p windowId
  | .window_set_minimized windowId minimized =>
      window_set_minimized p windowId minimized
  | .window_set_maximized windowId maximized =>
      window_set_maximized p windowId maximized
  | .window_is_maximized windowId => window_is_maximized p windowId
  | .window_set_fullscreen windowId fullscreen =>
      window_set_fullscreen p windowId fullscreen
  | .window_fullscreen windowId => window_fullscreen p windowId
  | .window_set_decorations windowId decorations =>
      window_set_decorations p windowId decorations
  | .window_is_decorated windowId => window_is_decorated p windowId
  | .window_set_always_on_top windowId alwaysOnTop =>
      window_set_always_on_top p windowId alwaysOnTop
  | .focus_window windowId => focus_window p windowId

/-- One atomic step of the proxy thread, as seen from the proxy state:
the synchronous half of a `next_event` call, the arrival of the awaited
event, or a complete synchronous window-operation call. -/
inductive PLabel where
  | nextEventAttempt
  | eventReceived
  | execute (c : ProxyCall)
deriving DecidableEq

/-- The step function of the proxy state machine.  `eventReceived` can
only complete an actually outstanding `next_event` (the hijacked thread
sends at most one event per `NextEvent` request), hence the guard. -/
def pstep (p : ProxyState) : PLabel → ProxyState
  | .nextEventAttempt => (next_event_attempt p).1
  | .eventReceived => if p.pending_next then next_event_finish p else p
  | .execute c => (runCall c p).state

/-- Run the proxy state machine from construction over a sequence of
atomic steps. -/
def runProxy (labels : List PLabel) : ProxyState :=
  labels.foldl pstep initProxyState

/-! ## Sample concrete values (used by witnesses and counterexamples) -/

/-- A concrete registered window. -/
def sampleWindow : Window := ⟨1, 0⟩

/-- A concrete native oracle whose window creation succeeds. -/
def sampleNative : Native where
  build := fun _ => .ok ⟨2, 0⟩
  instance_create_surface := fun i w => (i, w.id)
  is_decorated := fun _ => true
  enabled_buttons := fun _ => 0
  has_focus := fun _ => false
  fullscreen := fun _ => none
  inner_position := fun _ => .ok (0, 0)
  outer_position := fun _ => .ok (0, 0)
  inner_size := fun _ => (800, 600)
  outer_size := fun _ => (800, 600)
  is_minimized := fun _ => none
  is_maximized := fun _ => false
  is_resizable := fun _ => true
  resize_increments := fun _ => none
  scale_factor := fun _ => 1
  theme := fun _ => none
  title := fun _ => ""
  is_visible := fun _ => some true

/-- A concrete native oracle whose window creation fails with OS error
token 7. -/
def sampleNativeFail : Native :=
  { sampleNative with build := fun _ => .err 7 }

/-! ## Proxy-side lemmas -/

/-- `send_request` does not touch the channel allocator. -/
theorem send_request_next_chan (p : ProxyState) (r : ProxyRequest) :
    (send_request p r).next_chan = p.next_chan := by
  by_cases h : p.waiting_for_event <;> simp [send_request, h]

/-- `send_request` appends exactly its request to the send history. -/
theorem send_request_sent (p : ProxyState) (r : ProxyRequest) :
    (send_request p r).sent_requests = p.sent_requests ++ [r] := by
  by_cases h : p.waiting_for_event <;> simp [send_request, h]

/-- Every proxy method is channel allocation followed by
`send_request` of the request it built. -/
theorem runCall_as_send (c : ProxyCall) (p : ProxyState) :
    ∃ r, (runCall c p).state
      = send_request { p with next_chan := p.next_chan + 1 } r := by
  cases c <;> exact ⟨_, rfl⟩

/-- The uniform shape of every proxy method: the reply channel is the
freshly allocated rendezvous channel, the request carries its sender,
and the request is appended to the send history. -/
theorem runCall_spec (c : ProxyCall) (p : ProxyState) :
    (runCall c p).recvChan = ⟨p.next_chan, 0⟩
    ∧ (runCall c p).state.next_chan = p.next_chan + 1
    ∧ (runCall c p).req.replyChan = some p.next_chan
    ∧ (runCall c p).state.sent_requests
        = p.sent_requests ++ [(runCall c p).req] := by
  cases c <;>
    simp [runCall, create_window, destroy_window, create_webgpu_surface,
      window_scale_factor, window_request_redraw, window_inner_position,
      window_outer_position, window_set_outer_position, window_inner_size,
      window_set_inner_size, window_outer_size, window_set_min_inner_size,
      window_set_max_inner_size, window_set_title, window_set_visible,
      window_is_visible, window_set_resizable, window_is_resizable,
      window_set_minimized, window_set_maximized, window_is_maximized,
      window_set_fullscreen, window_fullscreen, window_set_decorations,
      window_is_decorated, window_set_always_on_top, focus_window,
      mkSyncChannel, ProxyRequest.replyChan, send_request_next_chan,
      send_request_sent]

/-- The flag bookkeeping invariant of the proxy state machine:
`waiting_for_event` holds exactly when a `next_event` request is
outstanding and no `send_request` has fired the wake since it was
sent. -/
theorem pstep_flag_inv (p : ProxyState) (l : PLabel)
    (h : p.waiting_for_event = (p.pending_next && !p.woken_since)) :
    (pstep p l).waiting_for_event
      = ((pstep p l).pending_next && !(pstep p l).woken_since) := by
  cases l with
  | nextEventAttempt =>
    by_cases ht : p.event_rx_taken <;>
      simp [pstep, next_event_attempt, ht, h]
  | eventReceived =>
    by_cases hp : p.pending_next <;>
      simp [pstep, next_event_finish, hp, h]
  | execute c =>
    obtain ⟨r, hr⟩ := runCall_as_send c p
    simp only [pstep, hr]
    cases hw : p.waiting_for_event <;> cases hpn : p.pending_next <;>
      cases hws : p.woken_since <;> simp_all [send_request]

/-- The flag bookkeeping invariant holds along every run. -/
theorem foldl_flag_inv (ls : List PLabel) (p : ProxyState)
    (h : p.waiting_for_event = (p.pending_next && !p.woken_since)) :
    (ls.foldl pstep p).waiting_for_event
      = ((ls.foldl pstep p).pending_next
          && !(ls.foldl pstep p).woken_since) := by
  induction ls generalizing p with
  | nil => exact h
  | cons l ls ih => exact ih (pstep p l) (pstep_flag_inv p l h)

/-- Claim C7: on every proxy-side request send (`send_request`), a wake
signal is fired exactly once when `waiting_for_event` is true at that
moment and not at all when it is false; the flag is false afterwards
(cleared in the first case, untouched in the second) before the caller
blocks on its reply channel; the request itself is sent in both cases. -/
theorem c7_send_request_wake (p : ProxyState) (r : ProxyRequest) :
    (send_request p r).wake_signals
        = p.wake_signals + (if p.waiting_for_event then 1 else 0)
    ∧ (send_request p r).waiting_for_event = false
    ∧ (send_request p r).sent_requests = p.sent_requests ++ [r] := by
  by_cases h : p.waiting_for_event <;> simp [send_request, h]

/-- Claim C2 (amended): along every run of the proxy state machine,
`waiting_for_event` is true exactly when a `next_event` call has sent
its `NextEvent` request, has not yet received its event, and no
`send_request` has fired the wake signal since that request was sent
(`send_request` clears the flag when it fires the wake, before the
event arrives). -/
theorem c2_waiting_flag_characterization (labels : List PLabel) :
    (runProxy labels).waiting_for_event
      = ((runProxy labels).pending_next
          && !(runProxy labels).woken_since) := by
  exact foldl_flag_inv labels initProxyState rfl

/-- Claim C2 as stated is false: after a `next_event` has sent its
request and suspended, an `execute` call (here `focus_window`) fires the
wake and clears `waiting_for_event` while the `next_event` call is still
outstanding, so the flag is false although the event has not been
received. -/
theorem c2_counterexample :
    ¬ ∀ labels : List PLabel,
        (runProxy labels).waiting_for_event
          = (runProxy labels).pending_next := by
  intro h
  exact absurd
    (h [PLabel.nextEventAttempt, PLabel.execute (ProxyCall.focus_window 0)])
    (by decide)

/-- Claim C4: calling `next_event` while the Event Forwarding Channel
receiver slot is already taken returns the "Receiver already in use"
error immediately with the proxy state unchanged (so no `NextEvent`
request is sent and the outstanding call is unaffected), and a
completing `next_event` restores the receiver slot, after which a new
attempt suspends instead of failing. -/
theorem c4_next_event_busy (p : ProxyState) :
    (p.event_rx_taken = true →
      next_event_attempt p = (p, .error "Receiver already in use"))
    ∧ (p.pending_next = true →
        (pstep p .eventReceived).event_rx_taken = false
        ∧ (next_event_attempt (pstep p .eventReceived)).2
            = NextEventOutcome.suspended) := by
  constructor
  · intro ht
    simp [next_event_attempt, ht]
  · intro hp
    simp [pstep, hp, next_event_finish, next_event_attempt]

/-- Witness for C4 at the state reached by one `next_event` attempt:
the receiver is taken and a request is outstanding there. -/
theorem c4_next_event_busy_witness :
    next_event_attempt (runProxy [PLabel.nextEventAttempt])
        = (runProxy [PLabel.nextEventAttempt],
            .error "Receiver already in use")
    ∧ (next_event_attempt
          (pstep (runProxy [PLabel.nextEventAttempt]) .eventReceived)).2
        = NextEventOutcome.suspended := by
  have h := c4_next_event_busy (runProxy [PLabel.nextEventAttempt])
  exact ⟨h.1 rfl, (h.2 rfl).2⟩

/-- Claim C8: every public window operation on the proxy allocates a
fresh capacity-zero (rendezvous) reply channel, puts its sender into the
request it sends, blocks on that same channel's receiver, appends
exactly that request to the Request Channel history, and no later call
can block on the same reply channel (channel identities strictly
increase, so reply channels are never reused). -/
theorem c8_fresh_rendezvous_reply_channels (c : ProxyCall) (p : ProxyState) :
    (runCall c p).recvChan.cap = 0
    ∧ (runCall c p).req.replyChan = some (runCall c p).recvChan.id
    ∧ (runCall c p).recvChan.id = p.next_chan
    ∧ (runCall c p).state.next_chan = p.next_chan + 1
    ∧ (runCall c p).state.sent_requests
        = p.sent_requests ++ [(runCall c p).req]
    ∧ ∀ c2 : ProxyCall,
        (runCall c2 (runCall c p).state).recvChan.id
          ≠ (runCall c p).recvChan.id := by
  obtain ⟨h1, h2, h3, h4⟩ := runCall_spec c p
  refine ⟨by rw [h1], by rw [h1]; exact h3, by rw [h1], h2, h4, ?_⟩
  intro c2
  have hs := (runCall_spec c2 (runCall c p).state).1
  rw [hs, h1, h2]
  simp

/-- Witness for C8 at a concrete call and state. -/
theorem c8_witness :
    (runCall (ProxyCall.window_set_title 1 "x") initProxyState).recvChan.cap
        = 0
    ∧ (runCall (ProxyCall.window_set_title 1 "x") initProxyState).recvChan.id
        = 0
    ∧ (runCall (ProxyCall.destroy_window 1)
          (runCall (ProxyCall.window_set_title 1 "x")
            initProxyState).state).recvChan.id
        ≠ (runCall (ProxyCall.window_set_title 1 "x")
            initProxyState).recvChan.id := by
  have h := c8_fresh_rendezvous_reply_channels
    (ProxyCall.window_set_title 1 "x") initProxyState
  exact ⟨h.1, h.2.2.1, h.2.2.2.2.2 (ProxyCall.destroy_window 1)⟩

/-! ## Drain-loop lemmas -/

/-- The trace of a `prependRec` is the prepended actions followed by the
underlying trace. -/
theorem prependRec_trace (r : Request) (acts : List LoopAction)
    (h : HandleResult) : (prependRec r acts h).trace = acts ++ h.trace := by
  cases h <;> rfl

/-- `forwardsOf` distributes over trace concatenation. -/
theorem forwardsOf_append (a b : List LoopAction) :
    forwardsOf (a ++ b) = forwardsOf a ++ forwardsOf b := by
  induction a with
  | nil => rfl
  | cons hd tl ih => cases hd <;> simp [forwardsOf, ih]

/-- The drain loop itself never sends anything on the Event Forwarding
Channel: its trace contains only service, reply and park actions. -/
theorem handle_requests_no_forwards (native : Native) (q : List Request)
    (windows : Registry) :
    forwardsOf (handle_requests native q windows).trace = [] := by
  induction q generalizing windows with
  | nil => rfl
  | cons r rest ih =>
    simp only [handle_requests]
    rcases hsr : serviceRequest native r windows with _ | _ | ⟨w2, tx, v⟩
    · rfl
    · rfl
    · rw [prependRec_trace, forwardsOf_append]
      simp [forwardsOf, ih]

/-- Claim C1 (amended): every occurrence delivered to the per-iteration
callback — the wake marker included — is forwarded exactly once on the
Event Forwarding Channel, translated by the `From` conversion; the wake
marker is translated to the payload-free `WsiEvent.userEvent`, not
skipped.  Nothing else in the iteration forwards events. -/
theorem c1_every_event_forwarded (native : Native) (event : WinitEvent)
    (q : List Request) (windows : Registry) :
    forwardsOf (loopIteration native event q windows).trace
        = [wsiEventOfWinit event]
    ∧ wsiEventOfWinit (WinitEvent.userEvent ()) = WsiEvent.userEvent := by
  refine ⟨?_, rfl⟩
  have hnf := handle_requests_no_forwards native q windows
  rcases heq : handle_requests native q windows with
      ⟨w2, s, tr, rest⟩ | ⟨w2, s, tr⟩ | ⟨w2, s, tr, off⟩ <;>
    rw [heq] at hnf <;>
    simp only [HandleResult.trace] at hnf <;>
    simp [loopIteration, heq, HandleResult.trace, forwardsOf,
      forwardsOf_append, hnf]

/-- Claim C1 as stated is false: in an iteration delivering the wake
marker (the injected user event), the per-iteration callback still sends
it on the Event Forwarding Channel (as the payload-free
`WsiEvent.userEvent`) instead of skipping it. -/
theorem c1_counterexample :
    ¬ ∀ (native : Native) (q : List Request) (windows : Registry),
        forwardsOf
            (loopIteration native (WinitEvent.userEvent ()) q windows).trace
          = [] := by
  intro h
  exact absurd (h sampleNative [] []) (by decide)

/-- Servicing yields `stop` (the loop's `break`) exactly for the
`NextEvent` marker. -/
theorem serviceRequest_stop_iff (native : Native) (r : Request)
    (windows : Registry) :
    serviceRequest native r windows = .stop ↔ r = .nextEvent := by
  cases r <;> simp [serviceRequest] <;> (try (split <;> simp))

/-- FIFO characterization of a completed drain: when `handle_requests`
breaks on the `NextEvent` marker, the serviced requests are exactly the
queue prefix before the first `NextEvent`, in order, and the suffix
after the marker is left queued untouched. -/
theorem handle_requests_done_fifo (native : Native) (q : List Request) :
    ∀ (windows w2 : Registry) (s : List Request) (tr : List LoopAction)
      (rest : List Request),
      handle_requests native q windows = .done w2 s tr rest →
      q = s ++ Request.nextEvent :: rest ∧ Request.nextEvent ∉ s := by
  induction q with
  | nil =>
    intro windows w2 s tr rest h
    exact HandleResult.noConfusion h
  | cons r rq ih =>
    intro windows w2 s tr rest h
    simp only [handle_requests] at h
    rcases hsr : serviceRequest native r windows with _ | _ | ⟨wr, tx, v⟩ <;>
      rw [hsr] at h
    · have hr : r = Request.nextEvent :=
        (serviceRequest_stop_iff native r windows).mp hsr
      cases h
      subst hr
      exact ⟨rfl, by simp⟩
    · exact HandleResult.noConfusion h
    · dsimp only at h
      rcases hsub : handle_requests native rq wr with
          ⟨w3, s3, tr3, rest3⟩ | ⟨w3, s3, tr3⟩ | ⟨w3, s3, tr3, off⟩ <;>
        rw [hsub] at h <;> simp only [prependRec] at h
      · cases h
        obtain ⟨hq, hni⟩ := ih _ _ _ _ _ hsub
        have hrne : r ≠ Request.nextEvent := by
          intro hr
          rw [(serviceRequest_stop_iff native r windows).mpr hr] at hsr
          exact ServiceOutcome.noConfusion hsr
        constructor
        · simp [hq]
        · simp only [List.mem_cons, not_or]
          exact ⟨fun hx => hrne hx.symm, hni⟩
      · exact HandleResult.noConfusion h
      · exact HandleResult.noConfusion h

/-- Claim C3: in every iteration of the hijacked loop the translated
native event is the first observable action (forwarded before any
request is serviced); and whenever the drain completes, the serviced
requests are exactly the FIFO prefix of the queue before the first
`NextEvent` marker, the suffix beyond the marker is untouched, and the
iteration ends by parking the native loop. -/
theorem c3_forward_then_fifo_drain (native : Native) (event : WinitEvent)
    (q : List Request) (windows : Registry) :
    (loopIteration native event q windows).trace.head?
        = some (.forward (wsiEventOfWinit event))
    ∧ ∀ (w2 : Registry) (s : List Request) (tr : List LoopAction)
        (rest : List Request),
        handle_requests native q windows = .done w2 s tr rest →
        q = s ++ Request.nextEvent :: rest
        ∧ Request.nextEvent ∉ s
        ∧ loopIteration native event q windows
            = .done w2 s
                (.forward (wsiEventOfWinit event) :: tr ++ [.park]) rest := by
  constructor
  · rcases heq : handle_requests native q windows with
        ⟨w2, s, tr, rest⟩ | ⟨w2, s, tr⟩ | ⟨w2, s, tr, off⟩ <;>
      simp [loopIteration, heq, HandleResult.trace]
  · intro w2 s tr rest h
    obtain ⟨hq, hni⟩ := handle_requests_done_fifo native q windows w2 s tr rest h
    exact ⟨hq, hni, by simp [loopIteration, h]⟩

/-- Witness for C3 on a concrete iteration: one serviced request, the
marker, one request left queued. -/
theorem c3_witness :
    (loopIteration sampleNative WinitEvent.suspended
          [Request.windowSetTitle 1 "a" 7, Request.nextEvent,
            Request.windowRedraw 1 8]
          [(1, sampleWindow)]).trace.head?
        = some (.forward WsiEvent.suspended)
    ∧ [Request.windowSetTitle 1 "a" 7, Request.nextEvent,
        Request.windowRedraw 1 8]
        = [Request.windowSetTitle 1 "a" 7]
            ++ Request.nextEvent :: [Request.windowRedraw 1 8]
    ∧ Request.nextEvent ∉ [Request.windowSetTitle 1 "a" 7] := by
  have h := c3_forward_then_fifo_drain sampleNative WinitEvent.suspended
    [Request.windowSetTitle 1 "a" 7, Request.nextEvent,
      Request.windowRedraw 1 8]
    [(1, sampleWindow)]
  have h2 := h.2 [(1, sampleWindow)] [Request.windowSetTitle 1 "a" 7]
    [.service (Request.windowSetTitle 1 "a" 7), .reply 7 .unit]
    [Request.windowRedraw 1 8] (by decide)
  exact ⟨h.1, h2.1, h2.2.1⟩

/-- Claim C5 (amended): servicing any lookup-performing window operation
(every variant except `NextEvent`, `CreateWindow` and `DestroyWindow`)
whose `WindowId` is absent from the registry panics on the
`windows.get(&window_id).unwrap()` and halts the drain loudly at that
request instead of silently doing nothing. -/
theorem c5_missing_window_panics (native : Native) (r : Request)
    (windows : Registry) (wid : Nat) (rest : List Request)
    (hl : r.lookupWindowId = some wid)
    (hw : lookupW windows wid = none) :
    serviceRequest native r windows = .panic
    ∧ handle_requests native (r :: rest) windows
        = .panicked windows [] [.service r] r := by
  have hp : serviceRequest native r windows = .panic := by
    cases r <;>
      simp only [Request.lookupWindowId, Request.carriedWindowId,
        Option.some.injEq] at hl <;>
      (try exact Option.noConfusion hl) <;>
      subst hl <;> simp [serviceRequest, hw]
  exact ⟨hp, by simp [handle_requests, hp]⟩

/-- Claim C5 as stated is false: `DestroyWindow` also carries a
`WindowId`, but servicing it with that id absent from the registry is a
silent no-op that replies `()` — it does not panic. -/
theorem c5_counterexample :
    ¬ ∀ (native : Native) (r : Request) (windows : Registry) (wid : Nat),
        r.carriedWindowId = some wid → lookupW windows wid = none →
        serviceRequest native r windows = .panic := by
  intro h
  exact absurd (h sampleNative (Request.destroyWindow 3 0) [] 3 rfl rfl)
    (by decide)

/-- Witness for C5 on a concrete lookup-performing request against an
empty registry. -/
theorem c5_witness :
    serviceRequest sampleNative (Request.windowSetTitle 3 "t" 0) [] = .panic
    ∧ handle_requests sampleNative [Request.windowSetTitle 3 "t" 0] []
        = .panicked [] [] [.service (Request.windowSetTitle 3 "t" 0)]
            (Request.windowSetTitle 3 "t" 0) := by
  exact c5_missing_window_panics sampleNative
    (Request.windowSetTitle 3 "t" 0) [] 3 [] rfl rfl

/-- Claim C6: a window-creation failure reported by the native library
never panics the drain loop; the typed error is sent back on the
request's reply channel and draining continues with the registry
unchanged; on success the new window is registered under its native
`WindowId` and that same id is replied as the `Ok` value. -/
theorem c6_create_window_failure_not_fatal (native : Native)
    (options : Option Nat) (resultTx : Nat) (windows : Registry)
    (rest : List Request) :
    serviceRequest native (.createWindow options resultTx) windows ≠ .panic
    ∧ (∀ e, native.build options = .err e →
        handle_requests native
            (.createWindow options resultTx :: rest) windows
          = prependRec (.createWindow options resultTx)
              [.service (.createWindow options resultTx),
                .reply resultTx (.createResult (.err e))]
              (handle_requests native rest windows))
    ∧ (∀ w, native.build options = .ok w →
        handle_requests native
            (.createWindow options resultTx :: rest) windows
          = prependRec (.createWindow options resultTx)
              [.service (.createWindow options resultTx),
                .reply resultTx (.createResult (.ok w.id))]
              (handle_requests native rest (insertW windows w.id w))) := by
  refine ⟨?_, ?_, ?_⟩
  · rcases hb : native.build options with w | e <;> simp [serviceRequest, hb]
  · intro e hb
    simp [handle_requests, serviceRequest, hb]
  · intro w hb
    simp [handle_requests, serviceRequest, hb]

/-- Witness for C6 with a concrete native oracle whose build fails with
error token 7. -/
theorem c6_witness :
    serviceRequest sampleNativeFail (Request.createWindow none 0) [] ≠ .panic
    ∧ handle_requests sampleNativeFail [Request.createWindow none 0] []
        = prependRec (Request.createWindow none 0)
            [.service (Request.createWindow none 0),
              .reply 0 (.createResult (.err 7))]
            (handle_requests sampleNativeFail [] []) := by
  have h := c6_create_window_failure_not_fatal sampleNativeFail none 0 [] []
  exact ⟨h.1, h.2.1 7 rfl⟩

/-- A key absent from the registry means `eraseW` changes nothing. -/
theorem eraseW_absent (windows : Registry) (wid : Nat)
    (h : lookupW windows wid = none) : eraseW windows wid = windows := by
  induction windows with
  | nil => rfl
  | cons kv rest ih =>
    obtain ⟨k, w⟩ := kv
    by_cases hk : k = wid
    · subst hk
      simp [lookupW] at h
    · simp only [lookupW, if_neg hk] at h
      simp [eraseW, hk, ih h]

/-- A key not among the registry keys is not found by `lookupW`. -/
theorem lookupW_none_of_not_mem (windows : Registry) (wid : Nat)
    (h : wid ∉ windows.map Prod.fst) : lookupW windows wid = none := by
  induction windows with
  | nil => rfl
  | cons kv rest ih =>
    obtain ⟨k, w⟩ := kv
    simp only [List.map_cons, List.mem_cons, not_or] at h
    have hk : ¬k = wid := fun he => h.1 he.symm
    simp [lookupW, hk, ih h.2]

/-- On a key-unique registry, `eraseW` is idempotent. -/
theorem eraseW_idem (windows : Registry) (wid : Nat)
    (h : (windows.map Prod.fst).Nodup) :
    eraseW (eraseW windows wid) wid = eraseW windows wid := by
  induction windows with
  | nil => rfl
  | cons kv rest ih =>
    obtain ⟨k, w⟩ := kv
    simp only [List.map_cons, List.nodup_cons] at h
    by_cases hk : k = wid
    · subst hk
      simp only [eraseW, if_pos rfl]
      exact eraseW_absent rest k (lookupW_none_of_not_mem rest k h.1)
    · simp [eraseW, hk, ih h.2]

/-- Claim C10: servicing `DestroyWindow` never panics: it removes the
registry entry if present, leaves the registry unchanged if the id is
absent, replies `()` in both cases, and is idempotent on a key-unique
registry. -/
theorem c10_destroy_window_idempotent (native : Native) (wid tx : Nat)
    (windows : Registry) :
    serviceRequest native (.destroyWindow wid tx) windows
        = .reply (eraseW windows wid) tx .unit
    ∧ (lookupW windows wid = none → eraseW windows wid = windows)
    ∧ ((windows.map Prod.fst).Nodup →
        eraseW (eraseW windows wid) wid = eraseW windows wid) := by
  exact ⟨rfl, eraseW_absent windows wid, eraseW_idem windows wid⟩

/-- Witness for C10: destroying an id that is not registered replies
`()` and leaves the registry untouched. -/
theorem c10_witness :
    serviceRequest sampleNative (Request.destroyWindow 5 0)
        [(1, sampleWindow)]
        = .reply (eraseW [(1, sampleWindow)] 5) 0 .unit
    ∧ eraseW [(1, sampleWindow)] 5 = [(1, sampleWindow)] := by
  have h := c10_destroy_window_idempotent sampleNative 5 0 [(1, sampleWindow)]
  exact ⟨h.1, h.2.1 rfl⟩

/-! ## Device-id lemmas -/

/-- A key found on the left of an append is found in the append. -/
theorem lookupA_append_left (A B : List (Nat × Nat)) (d v : Nat)
    (h : lookupA A d = some v) : lookupA (A ++ B) d = some v := by
  induction A with
  | nil => exact Option.noConfusion h
  | cons kv rest ih =>
    obtain ⟨k, u⟩ := kv
    by_cases hk : k = d
    · simp only [lookupA, if_pos hk] at h
      simp only [List.cons_append, lookupA, if_pos hk]
      exact h
    · simp only [lookupA, if_neg hk] at h
      simp only [List.cons_append, lookupA, if_neg hk]
      exact ih h

/-- A key absent on the left of an append is looked up on the right. -/
theorem lookupA_append_right (A B : List (Nat × Nat)) (d : Nat)
    (h : lookupA A d = none) : lookupA (A ++ B) d = lookupA B d := by
  induction A with
  | nil => rfl
  | cons kv rest ih =>
    obtain ⟨k, u⟩ := kv
    by_cases hk : k = d
    · simp [lookupA, if_pos hk] at h
    · simp only [lookupA, if_neg hk] at h
      simp only [List.cons_append, lookupA, if_neg hk]
      exact ih h

/-- `enum1From` distributes over append, shifting the start. -/
theorem enum1From_append (A B : List Nat) :
    ∀ k, enum1From k (A ++ B) = enum1From k A ++ enum1From (k + A.length) B := by
  induction A with
  | nil => intro k; simp [enum1From]
  | cons a rest ih =>
    intro k
    show (a, k) :: enum1From (k + 1) (rest ++ B)
        = enum1From k (a :: rest) ++ enum1From (k + (a :: rest).length) B
    rw [ih (k + 1)]
    simp only [enum1From, List.cons_append, List.length_cons]
    have hh : k + 1 + rest.length = k + (rest.length + 1) := by omega
    rw [hh]

/-- A key is missing from an `enum1From` exactly when it is missing from
the underlying list. -/
theorem lookupA_enum1From_none_iff (L : List Nat) (d : Nat) :
    ∀ k, lookupA (enum1From k L) d = none ↔ d ∉ L := by
  induction L with
  | nil => intro k; simp [enum1From, lookupA]
  | cons a rest ih =>
    intro k
    by_cases ha : a = d
    · simp [enum1From, lookupA, if_pos ha, ha]
    · have hda : ¬d = a := fun h => ha h.symm
      simp [enum1From, lookupA, if_neg ha, ih (k + 1), hda]

/-- Values in an `enum1From` starting at `k` are at least `k`. -/
theorem lookupA_enum1From_ge (L : List Nat) (d : Nat) :
    ∀ k u, lookupA (enum1From k L) d = some u → k ≤ u := by
  induction L with
  | nil => intro k u h; exact Option.noConfusion h
  | cons a rest ih =>
    intro k u h
    simp only [enum1From, lookupA] at h
    by_cases ha : a = d
    · rw [if_pos ha] at h
      cases h
      exact Nat.le_refl k
    · rw [if_neg ha] at h
      exact Nat.le_of_succ_le (ih (k + 1) u h)

/-- Distinct keys of an `enum1From` carry distinct values. -/
theorem lookupA_enum1From_inj (L : List Nat) :
    ∀ k d d2 u, lookupA (enum1From k L) d = some u →
      lookupA (enum1From k L) d2 = some u → d = d2 := by
  induction L with
  | nil => intro k d d2 u h; exact Option.noConfusion h
  | cons a rest ih =>
    intro k d d2 u h1 h2
    simp only [enum1From, lookupA] at h1 h2
    by_cases hd : a = d <;> by_cases hd2 : a = d2
    · rw [← hd, ← hd2]
    · rw [if_pos hd] at h1
      rw [if_neg hd2] at h2
      cases h1
      have := lookupA_enum1From_ge rest d2 (k + 1) k h2
      omega
    · rw [if_neg hd] at h1
      rw [if_pos hd2] at h2
      cases h2
      have := lookupA_enum1From_ge rest d (k + 1) k h1
      omega
    · rw [if_neg hd] at h1
      rw [if_neg hd2] at h2
      exact ih (k + 1) d d2 u h1 h2

/-- `firstOccsAux` only ever extends its accumulator. -/
theorem firstOccsAux_decomp (ds : List Nat) :
    ∀ acc, ∃ ext, firstOccsAux acc ds = acc ++ ext := by
  induction ds with
  | nil => intro acc; exact ⟨[], by simp [firstOccsAux]⟩
  | cons d rest ih =>
    intro acc
    by_cases hd : d ∈ acc
    · obtain ⟨ext, he⟩ := ih acc
      exact ⟨ext, by simp [firstOccsAux, hd, he]⟩
    · obtain ⟨ext, he⟩ := ih (acc ++ [d])
      exact ⟨[d] ++ ext, by simp [firstOccsAux, hd, he]⟩

/-- Once the global state is initialized, `serialize_device_id` runs
exactly like `DeviceIds.get`. -/
theorem runSerialize_eq_some (ds : List Nat) :
    ∀ s, runSerialize (some s) ds = runDeviceIds s ds := by
  induction ds with
  | nil => intro s; rfl
  | cons d rest ih =>
    intro s
    simp only [runSerialize, runDeviceIds, serialize_device_id,
      DeviceIds.get]
    rcases hl : lookupA s.map d with _ | u <;> simp [hl, ih]

/-- Invariant run of the memoizer: starting from a state whose map
numbers the already-seen ids `L` consecutively from 1, the value
returned for the `i`-th call is the number its id receives in the
first-appearance numbering of `L` extended by the remaining calls. -/
theorem c9_main (ds : List Nat) :
    ∀ (L : List Nat) (s : DeviceIds),
      s.map = enum1From 1 L → s.next = L.length + 1 →
      ∀ i, i < ds.length →
        lookupA (enum1From 1 (firstOccsAux L ds)) (ds.getD i 0)
          = some ((runDeviceIds s ds).getD i 0) := by
  induction ds with
  | nil =>
    intro L s hm hn i hi
    exact absurd hi (by simp)
  | cons d rest ih =>
    intro L s hm hn i hi
    rcases hl : lookupA s.map d with _ | u
    · have hdL : d ∉ L := by
        rw [hm] at hl
        exact (lookupA_enum1From_none_iff L d 1).mp hl
      have hfa : firstOccsAux L (d :: rest) = firstOccsAux (L ++ [d]) rest := by
        simp [firstOccsAux, hdL]
      have hmap2 :
          (⟨s.map ++ [(d, s.next)], s.next + 1⟩ : DeviceIds).map
            = enum1From 1 (L ++ [d]) := by
        simp only [hm, hn, enum1From_append, enum1From]
        have hh : L.length + 1 = 1 + L.length := by omega
        rw [hh]
      have hnext2 :
          (⟨s.map ++ [(d, s.next)], s.next + 1⟩ : DeviceIds).next
            = (L ++ [d]).length + 1 := by
        simp [hn]
      cases i with
      | zero =>
        rw [List.getD_cons_zero, hfa]
        obtain ⟨ext, hext⟩ := firstOccsAux_decomp rest (L ++ [d])
        rw [hext, enum1From_append]
        have hfound : lookupA (enum1From 1 (L ++ [d])) d
            = some (L.length + 1) := by
          rw [enum1From_append]
          rw [lookupA_append_right _ _ d
            ((lookupA_enum1From_none_iff L d 1).mpr hdL)]
          have hh : 1 + L.length = L.length + 1 := by omega
          simp [enum1From, lookupA, hh]
        rw [lookupA_append_left _ _ _ _ hfound]
        simp [runDeviceIds, DeviceIds.get, hl, hn]
      | succ i2 =>
        rw [List.getD_cons_succ, hfa]
        have hrec := ih (L ++ [d]) ⟨s.map ++ [(d, s.next)], s.next + 1⟩
          hmap2 hnext2 i2 (by simpa using hi)
        simpa [runDeviceIds, DeviceIds.get, hl] using hrec
    · have hfa : firstOccsAux L (d :: rest) = firstOccsAux L rest := by
        have hdL : d ∈ L := by
          by_contra hno
          have hnone := (lookupA_enum1From_none_iff L d 1).mpr hno
          rw [hm, hnone] at hl
          exact Option.noConfusion hl
        simp [firstOccsAux, hdL]
      cases i with
      | zero =>
        rw [List.getD_cons_zero, hfa]
        obtain ⟨ext, hext⟩ := firstOccsAux_decomp rest L
        rw [hext, enum1From_append]
        have hlu : lookupA (enum1From 1 L) d = some u := by
          rw [← hm]; exact hl
        rw [lookupA_append_left _ _ _ _ hlu]
        simp [runDeviceIds, DeviceIds.get, hl]
      | succ i2 =>
        rw [List.getD_cons_succ, hfa]
        have hrec := ih L s hm hn i2 (by simpa using hi)
        simpa [runDeviceIds, DeviceIds.get, hl] using hrec

/-- Claim C9: the device-id virtualization is a stable memoizing
counter.  The global-state `serialize_device_id` and the explicit-state
`DeviceIds.get` produce identical outputs on every call sequence; every
call's output is the number its device id receives in the
first-appearance numbering (distinct ids numbered consecutively from 1
in order of first appearance); hence equal ids always get equal outputs
and distinct ids always get distinct outputs. -/
theorem c9_device_id_memoization (ids : List Nat) :
    runSerialize none ids = runDeviceIds DeviceIds.new ids
    ∧ ∀ i j, i < ids.length → j < ids.length →
        lookupA (specDeviceMap ids) (ids.getD i 0)
          = some ((runDeviceIds DeviceIds.new ids).getD i 0)
        ∧ (ids.getD i 0 = ids.getD j 0 →
            (runDeviceIds DeviceIds.new ids).getD i 0
              = (runDeviceIds DeviceIds.new ids).getD j 0)
        ∧ (ids.getD i 0 ≠ ids.getD j 0 →
            (runDeviceIds DeviceIds.new ids).getD i 0
              ≠ (runDeviceIds DeviceIds.new ids).getD j 0) := by
  have hmain : ∀ i, i < ids.length →
      lookupA (specDeviceMap ids) (ids.getD i 0)
        = some ((runDeviceIds DeviceIds.new ids).getD i 0) := by
    intro i hi
    exact c9_main ids [] DeviceIds.new rfl rfl i hi
  constructor
  · cases ids with
    | nil => rfl
    | cons d rest =>
      simp only [runSerialize, runDeviceIds, serialize_device_id,
        DeviceIds.get, DeviceIds.new, lookupA]
      simp [runSerialize_eq_some]
  · intro i j hi hj
    refine ⟨hmain i hi, ?_, ?_⟩
    · intro heq
      have h1 := hmain i hi
      have h2 := hmain j hj
      rw [heq] at h1
      rw [h1] at h2
      exact Option.some.inj h2
    · intro hne heqout
      have h1 := hmain i hi
      have h2 := hmain j hj
      rw [heqout] at h1
      simp only [specDeviceMap] at h1 h2
      exact hne (lookupA_enum1From_inj (firstOccs ids) 1 _ _ _ h1 h2)

/-- Witness for C9 on the call sequence 5, 7, 5, 9: both
implementations agree, the first call's output is recorded in the spec
map, and the repeated id 5 gets the same output both times. -/
theorem c9_witness :
    runSerialize none [5, 7, 5, 9] = runDeviceIds DeviceIds.new [5, 7, 5, 9]
    ∧ lookupA (specDeviceMap [5, 7, 5, 9]) 5
        = some ((runDeviceIds DeviceIds.new [5, 7, 5, 9]).getD 0 0)
    ∧ (runDeviceIds DeviceIds.new [5, 7, 5, 9]).getD 0 0
        = (runDeviceIds DeviceIds.new [5, 7, 5, 9]).getD 2 0 := by
  have h := c9_device_id_memoization [5, 7, 5, 9]
  have h2 := h.2 0 2 (by decide) (by decide)
  exact ⟨h.1, h2.1, h2.2.1 rfl⟩
